import Mathlib

/-!
Verification of the snowplow-rust-tracker core: the payload data model and
its validating builder (src/payload.rs), the millisecond-timestamp string
codec (src/timestamp.rs), and the tracking orchestration (src/tracker.rs),
shallowly embedded in Lean.  JSON values are modelled by an inductive
`Json` mirroring serde_json's `Value` (whose object map is a `BTreeMap`,
hence keys are kept sorted), and `renderJson` mirrors compact
`serde_json::to_string` output.
-/

namespace Snowplow

/-- Model of `serde_json::Value`.  Object fields are an association list;
values built through `mkObj` (the `json!` macro / `BTreeMap` path) keep
their keys sorted, mirroring serde_json's default `BTreeMap` map type. -/
inductive Json where
  | null : Json
  | bool : Bool → Json
  | num : Int → Json
  | str : String → Json
  | arr : List Json → Json
  | obj : List (String × Json) → Json

/-- Lexicographic order on character lists; agrees with Rust's byte-wise
`Ord for String` on the ASCII keys used here. -/
def charsLe : List Char → List Char → Bool
  | [], _ => true
  | _ :: _, [] => false
  | a :: as, b :: bs =>
    if a.toNat < b.toNat then true
    else if a.toNat = b.toNat then charsLe as bs
    else false

/-- Key order used by the object map. -/
def strLe (a b : String) : Bool := charsLe a.data b.data

/-- Insert a field into a key-sorted association list (model of
`BTreeMap::insert` as performed by the `json!` macro). -/
def insertField (p : String × Json) : List (String × Json) → List (String × Json)
  | [] => [p]
  | q :: qs => if strLe p.1 q.1 then p :: q :: qs else q :: insertField p qs

/-- Build a JSON object the way `json!{...}` does: fields end up ordered
by key, because serde_json's default object representation is a
`BTreeMap<String, Value>`. -/
def mkObj (fs : List (String × Json)) : Json :=
  Json.obj (fs.foldl (fun acc p => insertField p acc) [])

/-- JSON string escaping as performed by serde_json for the characters
that occur in this development (quote, backslash and the common control
characters). -/
def escapeChar (c : Char) : String :=
  if c = '"' then "\\\""
  else if c = '\\' then "\\\\"
  else if c = '\n' then "\\n"
  else if c = '\t' then "\\t"
  else if c = '\r' then "\\r"
  else String.singleton c

def escapeStr (s : String) : String :=
  String.join (s.data.map escapeChar)

/-- Render a string as a JSON string literal. -/
def jstr (s : String) : String := "\"" ++ escapeStr s ++ "\""

/-- The decimal digit character for `d < 10`. -/
def digitChar (d : Nat) : Char := Char.ofNat (48 + d)

/-- Decimal digits of a natural number, most significant first
(model of Rust's `to_string` for unsigned values). -/
def natRender (n : Nat) : List Char :=
  if _h : n < 10 then [digitChar n]
  else natRender (n / 10) ++ [digitChar (n % 10)]
  termination_by n
  decreasing_by exact Nat.div_lt_self (by omega) (by omega)

/-- Decimal rendering of a signed integer, model of Rust's
`i64::to_string`. -/
def intRender (i : Int) : List Char :=
  if i < 0 then '-' :: natRender i.natAbs else natRender i.natAbs

mutual

/-- Compact rendering, mirroring `serde_json::to_string`. -/
def renderJson : Json → String
  | .null => "null"
  | .bool b => if b then "true" else "false"
  | .num i => String.mk (intRender i)
  | .str s => jstr s
  | .arr xs => "[" ++ renderArr xs ++ "]"
  | .obj fs => "\x7b" ++ renderObj fs ++ "\x7d"

def renderArr : List Json → String
  | [] => ""
  | [x] => renderJson x
  | x :: y :: xs => renderJson x ++ "," ++ renderArr (y :: xs)

def renderObj : List (String × Json) → String
  | [] => ""
  | [(k, v)] => jstr k ++ ":" ++ renderJson v
  | (k, v) :: q :: fs => jstr k ++ ":" ++ renderJson v ++ "," ++ renderObj (q :: fs)

end

/-! ## The timestamp codec (src/timestamp.rs)

`ts_milliseconds_string::serialize` writes `dt.timestamp_millis().to_string()`;
`visit_str` does `value.parse::<i64>().ok().and_then(DateTime::from_timestamp_millis)`
and on `None` fails with an invalid-value error carrying the input string. -/

/-- The value of the digit character `c`, if it is a decimal digit. -/
def digitVal (c : Char) : Option Nat :=
  if 48 ≤ c.toNat ∧ c.toNat ≤ 57 then some (c.toNat - 48) else none

/-- Accumulate the value of a list of decimal digits; fails on the first
non-digit character (model of the digit loop of Rust's integer `FromStr`). -/
def digitsVal (acc : Nat) : List Char → Option Nat
  | [] => some acc
  | c :: cs =>
    match digitVal c with
    | some d => digitsVal (acc * 10 + d) cs
    | none => none

/-- Strip an optional leading sign, as Rust's integer `FromStr` does
(`-` and `+` are both accepted); returns (negative?, remaining chars). -/
def stripSign : List Char → Bool × List Char
  | [] => (false, [])
  | c :: rest =>
    if c = '-' then (true, rest)
    else if c = '+' then (false, rest)
    else (false, c :: rest)

/-- Value of a signed decimal digit string: sign, then at least one digit,
nothing else.  Extensionally equal to Rust's `FromStr` parse, ignoring the
machine-width bound (checked separately in `parseI64`). -/
def parseIntChars (cs : List Char) : Option Int :=
  let sr := stripSign cs
  if sr.2 = [] then none
  else (digitsVal 0 sr.2).map (fun v => if sr.1 then -(v : Int) else (v : Int))

/-- Model of `str::parse::<i64>()`: a sign and at least one decimal digit,
failing when the value overflows `i64` (Rust's checked accumulation fails
exactly when the final magnitude is out of range). -/
def parseI64 (s : String) : Option Int :=
  match parseIntChars s.data with
  | some v => if -(2 ^ 63) ≤ v ∧ v ≤ 2 ^ 63 - 1 then some v else none
  | none => none

/-- Smallest millisecond timestamp accepted by chrono's
`DateTime::from_timestamp_millis` (midnight, January 1 of year −262143). -/
def tsMinMillis : Int := -8334601228800000

/-- Largest millisecond timestamp accepted by chrono's
`DateTime::from_timestamp_millis` (end of December 31 of year 262142). -/
def tsMaxMillis : Int := 8210266876799999

/-- Model of `DateTime::from_timestamp_millis`: succeeds exactly on the
representable range; a point in time is identified with its millisecond
offset from the Unix epoch. -/
def fromTimestampMillis (ms : Int) : Option Int :=
  if tsMinMillis ≤ ms ∧ ms ≤ tsMaxMillis then some ms else none

/-- `ts_milliseconds_string::serialize`: the base-10 string of the
millisecond offset. -/
def encodeTs (ms : Int) : String := String.mk (intRender ms)

/-- The `Option`-free part of decoding: parse as `i64`, then range-check
via `from_timestamp_millis`. -/
def decodeTs (s : String) : Option Int :=
  (parseI64 s).bind fromTimestampMillis

/-- `TsMillisecondsStringVisitor::visit_str`: on failure the error is
`invalid_value(Unexpected::Str(value))`, carrying the offending string. -/
def visitTsStr (value : String) : Except String Int :=
  match decodeTs value with
  | some t => Except.ok t
  | none => Except.error value

/-- `ts_milliseconds_string_option::serialize`: `Some` serializes the
decimal string, `None` serializes a JSON null. -/
def encodeTsOpt : Option Int → Json
  | some ms => Json.str (encodeTs ms)
  | none => Json.null

/-- `ts_milliseconds_string_option::deserialize`: a JSON null (visit_none /
visit_unit) yields `none`; a string goes through `visit_str`; anything else
is a type error. -/
def decodeTsOpt : Json → Option (Option Int)
  | Json.null => some none
  | Json.str s => (decodeTs s).map some
  | _ => none

/-! ## The payload data model (src/payload.rs) -/

/-- A UUID, kept abstract as its textual rendering (`uuid::Uuid`
serializes to its hyphenated string form). -/
structure Uuid where
  text : String
deriving DecidableEq

/-- `EventType`: `StructuredEvent` serializes as "se",
`SelfDescribingEvent` as "ue". -/
inductive EventType where
  | structuredEvent : EventType
  | selfDescribingEvent : EventType
deriving DecidableEq

/-- The serde rename applied when serializing an `EventType`. -/
def EventType.wire : EventType → String
  | .structuredEvent => "se"
  | .selfDescribingEvent => "ue"

/-- `SelfDescribingJson`: a schema path plus arbitrary JSON data. -/
structure SelfDescribingJson where
  schema : String
  data : Json

/-- `SelfDescribingJson::new`. -/
def SelfDescribingJson.new (schema : String) (data : Json) : SelfDescribingJson :=
  ⟨schema, data⟩

/-- The derived `Serialize` for `SelfDescribingJson`, landing in a
`serde_json::Value` (fields ordered by the `BTreeMap`). -/
def SelfDescribingJson.toValue (j : SelfDescribingJson) : Json :=
  mkObj [("schema", Json.str j.schema), ("data", j.data)]

/-- The fixed schema constant injected by `SelfDescribingEventData::new`. -/
def unstructEventSchema : String :=
  "iglu:com.snowplowanalytics.snowplow/unstruct_event/jsonschema/1-0-0"

/-- The fixed schema constant injected by `ContextData::new`. -/
def contextsSchema : String :=
  "iglu:com.snowplowanalytics.snowplow/contexts/jsonschema/1-0-1"

/-- `SelfDescribingEventData`: both fields are `pub` in the source, so the
structure constructor mirrors the public struct literal. -/
structure SelfDescribingEventData where
  schema : String
  data : SelfDescribingJson

/-- `SelfDescribingEventData::new`: injects the unstruct_event schema. -/
def SelfDescribingEventData.new (data : SelfDescribingJson) : SelfDescribingEventData :=
  ⟨unstructEventSchema, data⟩

/-- The logical value built by the manual `Serialize` impl:
`json!({ "schema": self.schema, "data": self.data })`. -/
def SelfDescribingEventData.innerValue (e : SelfDescribingEventData) : Json :=
  mkObj [("schema", Json.str e.schema), ("data", e.data.toValue)]

/-- The manual `Serialize` impl for `SelfDescribingEventData`:
`serialize_str` of the rendered inner value — a JSON *string*. -/
def SelfDescribingEventData.serialize (e : SelfDescribingEventData) : Json :=
  Json.str (renderJson e.innerValue)

/-- `ContextData`: both fields are `pub` in the source, so the structure
constructor mirrors the public struct literal. -/
structure ContextData where
  schema : String
  data : List SelfDescribingJson

/-- `ContextData::new`: injects the contexts schema. -/
def ContextData.new (data : List SelfDescribingJson) : ContextData :=
  ⟨contextsSchema, data⟩

/-- The logical value built by the manual `Serialize` impl for
`ContextData`: `json!({ "schema": self.schema, "data": self.data })`. -/
def ContextData.innerValue (c : ContextData) : Json :=
  mkObj [("schema", Json.str c.schema),
         ("data", Json.arr (c.data.map SelfDescribingJson.toValue))]

/-- The manual `Serialize` impl for `ContextData`: `serialize_str` of the
rendered inner value — a JSON *string*. -/
def ContextData.serialize (c : ContextData) : Json :=
  Json.str (renderJson c.innerValue)

/-- Modelled from the spec: the `Subject` type lives in src/subject.rs,
which is not part of the sources at hand.  The spec describes it as a bag
of independently optional attributes (user id, ip address, language, …);
three representative attributes are modelled. -/
structure Subject where
  user_id : Option String := none
  ip_address : Option String := none
  language : Option String := none
deriving DecidableEq

/-- Take the first option when present, else the second. -/
def mergeOpt (a b : Option α) : Option α :=
  match a with
  | some v => some v
  | none => b

/-- Modelled from the spec: `merge(primary, fallback)` is field-wise —
for each attribute the result takes primary's value if present, else
fallback's value, else absent. -/
def Subject.merge (primary fallback : Subject) : Subject :=
  { user_id := mergeOpt primary.user_id fallback.user_id
    ip_address := mergeOpt primary.ip_address fallback.ip_address
    language := mergeOpt primary.language fallback.language }

/-- A field that is present contributes one key; an absent one none. -/
def optField (k : String) (o : Option Json) : List (String × Json) :=
  match o with
  | some v => [(k, v)]
  | none => []

/-- Modelled from the spec: the subject's attributes are flattened into
the payload object, each attribute emitted only when set (skipped when
absent). -/
def Subject.serializeFields (s : Subject) : List (String × Json) :=
  optField "uid" (s.user_id.map Json.str)
    ++ optField "ip" (s.ip_address.map Json.str)
    ++ optField "lang" (s.language.map Json.str)

/-- Modelled from the spec: the `StructuredEvent` type lives in
src/event.rs, which is not part of the sources at hand.  The spec treats
it as an opaque set of optional flattened fields; two representative
fields are modelled. -/
structure StructuredEvent where
  se_ca : Option String := none
  se_ac : Option String := none
deriving DecidableEq

/-- Modelled from the spec: structured-event fields are flattened into the
payload object, each emitted only when set. -/
def StructuredEvent.serializeFields (se : StructuredEvent) : List (String × Json) :=
  optField "se_ca" (se.se_ca.map Json.str)
    ++ optField "se_ac" (se.se_ac.map Json.str)

/-- Modelled from the spec: the crate `Error` type lives in src/error.rs,
which is not part of the sources at hand.  The spec's taxonomy names a
MissingField/BuildError condition (required field missing, clock
unreadable — the source constructs `Error::BuilderError(..)` for the
latter) and an opaque delivery error. -/
inductive Error where
  | missingField : String → Error
  | builderError : String → Error
  | emitterError : String → Error
deriving DecidableEq

/-- `Payload` (src/payload.rs lines 41-79): timestamps are identified with
their millisecond offsets from the Unix epoch. -/
structure Payload where
  p : String
  tv : String
  eid : Uuid
  dtm : Int
  stm : Int
  ttm : Option Int
  e : Option EventType
  aid : String
  ue_pr : Option SelfDescribingEventData
  co : Option ContextData
  structured_event : Option StructuredEvent
  subject : Option Subject

/-- Serialization of a `Payload` as a list of key/value pairs, in serde's
field order.  `p`, `tv`, `eid`, `dtm`, `stm`, `aid` are always emitted;
`ttm`, `ue_pr`, `co`, the flattened structured event and the flattened
subject carry `skip_serializing_if = "Option::is_none"` and are omitted
when absent.  `e` has no skip attribute in the source, so an unset `e`
serializes as a JSON null under the key "e". -/
def Payload.serializeFields (pl : Payload) : List (String × Json) :=
  [("p", Json.str pl.p),
   ("tv", Json.str pl.tv),
   ("eid", Json.str pl.eid.text),
   ("dtm", Json.str (encodeTs pl.dtm)),
   ("stm", Json.str (encodeTs pl.stm))]
  ++ optField "ttm" (pl.ttm.map (fun t => Json.str (encodeTs t)))
  ++ [("e", match pl.e with
            | none => Json.null
            | some et => Json.str et.wire)]
  ++ [("aid", Json.str pl.aid)]
  ++ optField "ue_pr" (pl.ue_pr.map SelfDescribingEventData.serialize)
  ++ optField "co" (pl.co.map ContextData.serialize)
  ++ (match pl.structured_event with
      | none => []
      | some se => se.serializeFields)
  ++ (match pl.subject with
      | none => []
      | some s => s.serializeFields)

/-- The keys of the serialized payload object. -/
def Payload.serializeKeys (pl : Payload) : List String :=
  pl.serializeFields.map Prod.fst

/-- `PayloadBuilder` as generated by derive_builder: one `Option` slot per
field, all starting unset; fields marked `#[builder(default)]`
(`ttm`, `e`, `ue_pr`, `co`, `structured_event`, `subject`) fall back to
their `Default` (`None`) at build time. -/
structure PayloadBuilder where
  p : Option String := none
  tv : Option String := none
  eid : Option Uuid := none
  dtm : Option Int := none
  stm : Option Int := none
  ttm : Option (Option Int) := none
  e : Option (Option EventType) := none
  aid : Option String := none
  ue_pr : Option (Option SelfDescribingEventData) := none
  co : Option (Option ContextData) := none
  structured_event : Option (Option StructuredEvent) := none
  subject : Option (Option Subject) := none

/-- `Payload::builder()` = `PayloadBuilder::default()`. -/
def Payload.builder : PayloadBuilder := {}

/-- Builder setter for `p` (derive_builder owned-pattern setter). -/
def PayloadBuilder.setP (b : PayloadBuilder) (v : String) : PayloadBuilder :=
  { b with p := some v }

/-- Builder setter for `tv`. -/
def PayloadBuilder.setTv (b : PayloadBuilder) (v : String) : PayloadBuilder :=
  { b with tv := some v }

/-- Builder setter for `eid`. -/
def PayloadBuilder.setEid (b : PayloadBuilder) (v : Uuid) : PayloadBuilder :=
  { b with eid := some v }

/-- Builder setter for `dtm`. -/
def PayloadBuilder.setDtm (b : PayloadBuilder) (v : Int) : PayloadBuilder :=
  { b with dtm := some v }

/-- Builder setter for `stm`. -/
def PayloadBuilder.setStm (b : PayloadBuilder) (v : Int) : PayloadBuilder :=
  { b with stm := some v }

/-- Builder setter for `ttm` (strip_option: takes the payload-level value). -/
def PayloadBuilder.setTtm (b : PayloadBuilder) (v : Int) : PayloadBuilder :=
  { b with ttm := some (some v) }

/-- Builder setter for `e`. -/
def PayloadBuilder.setE (b : PayloadBuilder) (v : EventType) : PayloadBuilder :=
  { b with e := some (some v) }

/-- Builder setter for `aid`. -/
def PayloadBuilder.setAid (b : PayloadBuilder) (v : String) : PayloadBuilder :=
  { b with aid := some v }

/-- Builder setter for `ue_pr`. -/
def PayloadBuilder.setUePr (b : PayloadBuilder) (v : SelfDescribingEventData) : PayloadBuilder :=
  { b with ue_pr := some (some v) }

/-- Builder setter for `co`. -/
def PayloadBuilder.setCo (b : PayloadBuilder) (v : ContextData) : PayloadBuilder :=
  { b with co := some (some v) }

/-- Builder setter for `structured_event`. -/
def PayloadBuilder.setStructuredEvent (b : PayloadBuilder) (v : StructuredEvent) : PayloadBuilder :=
  { b with structured_event := some (some v) }

/-- Builder setter for `subject`. -/
def PayloadBuilder.setSubject (b : PayloadBuilder) (v : Subject) : PayloadBuilder :=
  { b with subject := some (some v) }

/-- `PayloadBuilder::build()` as generated by derive_builder: each
required field (no `#[builder(default)]`) is checked in declaration order
and the first unset one aborts with an uninitialized-field error naming
it; defaulted fields fall back to `None`. -/
def PayloadBuilder.build (b : PayloadBuilder) : Except Error Payload :=
  match b.p with
  | none => Except.error (Error.missingField "p")
  | some vp =>
  match b.tv with
  | none => Except.error (Error.missingField "tv")
  | some vtv =>
  match b.eid with
  | none => Except.error (Error.missingField "eid")
  | some veid =>
  match b.dtm with
  | none => Except.error (Error.missingField "dtm")
  | some vdtm =>
  match b.stm with
  | none => Except.error (Error.missingField "stm")
  | some vstm =>
  match b.aid with
  | none => Except.error (Error.missingField "aid")
  | some vaid =>
    Except.ok
      { p := vp
        tv := vtv
        eid := veid
        dtm := vdtm
        stm := vstm
        ttm := b.ttm.getD none
        e := b.e.getD none
        aid := vaid
        ue_pr := b.ue_pr.getD none
        co := b.co.getD none
        structured_event := b.structured_event.getD none
        subject := b.subject.getD none }

/-- `PayloadBuilder::finalise_payload`: stamps `stm` with the current time
(`Utc::now()`, passed here as the explicit reading `now`) and then
delegates to `build()`. -/
def PayloadBuilder.finalisePayload (b : PayloadBuilder) (now : Int) : Except Error Payload :=
  (b.setStm now).build

/-! ## Tracking orchestration (src/tracker.rs)

The emitter is an external collaborator; `track` is modelled as a pure
function of its inputs plus explicit readings of its effectful
collaborators: the clock result, the freshly generated UUID, and the
emitter's `add` operation.  The payloads handed to the emitter are
returned alongside the result so that delivery effects are observable. -/

/-- `TrackerConfig`. -/
structure TrackerConfig where
  platform : String
  version : String
  encode_base_64 : Bool

/-- `Tracker` (the emitter handle is passed to `track` explicitly; the
`namespace` field is renamed since `namespace` is a Lean keyword). -/
structure Tracker where
  nspace : String
  app_id : String
  config : TrackerConfig
  subject : Subject

/-- `Tracker::new`: a missing subject defaults to `Subject::default()`
(all attributes `None`); the config holds the static platform/version
constants. -/
def Tracker.new (nspace app_id : String) (subject : Option Subject) : Tracker :=
  { nspace := nspace
    app_id := app_id
    subject := subject.getD {}
    config := { platform := "pc", version := "rust-0.1.0", encode_base_64 := false } }

/-- Modelled from the spec: the `EventBuildable` capability (src/event.rs
is not part of the sources at hand) — an event exposes an optional
Subject override and a finalizer taking the partially-seeded builder to a
built Payload or a build error. -/
structure Event where
  subject : Option Subject
  build_payload : PayloadBuilder → Except Error Payload

/-- The builder seeded at the start of `track`: platform, tracker
version, event id, `dtm = now`, `stm = now` (the single captured clock
reading, truncated to milliseconds), application id. -/
def Tracker.seedBuilder (t : Tracker) (now : Int) (eventId : Uuid) : PayloadBuilder :=
  ((((((Payload.builder).setP t.config.platform).setTv
      t.config.version).setEid eventId).setDtm now).setStm now).setAid t.app_id

/-- The builder handed to the event's finalizer: the seeded builder, plus
the wrapped context when one is supplied, plus the merged subject when
the event declares one. -/
def Tracker.trackBuilder (t : Tracker) (now : Int) (eventId : Uuid)
    (context : Option (List SelfDescribingJson)) (eventSubject : Option Subject) :
    PayloadBuilder :=
  let b := t.seedBuilder now eventId
  let b := match context with
    | some ctx => b.setCo (ContextData.new ctx)
    | none => b
  match eventSubject with
  | some s => b.setSubject (s.merge t.subject)
  | none => b

/-- `Tracker::track`.  `clock` is the result of reading the system clock
(`Ok` carries the captured millisecond reading; `Err` carries the
`SystemTimeError` text), `eventId` the freshly generated UUID, and `emit`
the emitter's `add` operation.  The first component of the result lists
the payloads handed to the emitter during the call. -/
def Tracker.track (t : Tracker) (ev : Event)
    (context : Option (List SelfDescribingJson))
    (clock : Except String Int) (eventId : Uuid)
    (emit : Payload → Except Error Unit) :
    List Payload × Except Error Uuid :=
  match clock with
  | Except.error msg =>
    ([], Except.error (Error.builderError ("Failed to get current time: " ++ msg)))
  | Except.ok now =>
    match ev.build_payload (t.trackBuilder now eventId context ev.subject) with
    | Except.error e => ([], Except.error e)
    | Except.ok payload =>
      match emit payload with
      | Except.ok _ => ([payload], Except.ok eventId)
      | Except.error e => ([payload], Except.error e)

/-! ## A JSON parser

Used to state that the double-encoded envelope strings parse back to the
intended logical object.  It accepts the compact form produced by
`renderJson` (strings with quote/backslash escapes, signed integers,
arrays, objects). -/

/-- Unescape the character following a backslash inside a string literal. -/
def unescapeChar (c : Char) : Char :=
  if c = 'n' then '\n'
  else if c = 't' then '\t'
  else if c = 'r' then '\r'
  else c

/-- Parse the body of a string literal, after the opening quote; returns
the string contents and the characters after the closing quote. -/
def parseStringBody (fuel : Nat) (cs : List Char) : Option (String × List Char) :=
  match fuel, cs with
  | 0, _ => none
  | _, [] => none
  | fuel + 1, c :: rest =>
    if c = '"' then some ("", rest)
    else if c = '\\' then
      match rest with
      | [] => none
      | ec :: rest2 =>
        (parseStringBody fuel rest2).map
          (fun sr => (String.singleton (unescapeChar ec) ++ sr.1, sr.2))
    else
      (parseStringBody fuel rest).map
        (fun sr => (String.singleton c ++ sr.1, sr.2))

/-- Parse an unsigned decimal integer (at least one digit). -/
def parseNatChars (fuel : Nat) (acc : Nat) (cs : List Char) : Option (Nat × List Char) :=
  match fuel, cs with
  | 0, _ => none
  | _, [] => some (acc, [])
  | fuel + 1, c :: rest =>
    match digitVal c with
    | some d => parseNatChars fuel (acc * 10 + d) rest
    | none => some (acc, c :: rest)

mutual

/-- Parse one JSON value from the front of the input. -/
def parseVal (fuel : Nat) (cs : List Char) : Option (Json × List Char) :=
  match fuel with
  | 0 => none
  | fuel + 1 =>
    match cs with
    | 'n' :: 'u' :: 'l' :: 'l' :: rest => some (Json.null, rest)
    | 't' :: 'r' :: 'u' :: 'e' :: rest => some (Json.bool true, rest)
    | 'f' :: 'a' :: 'l' :: 's' :: 'e' :: rest => some (Json.bool false, rest)
    | '"' :: rest =>
      (parseStringBody fuel rest).map (fun sr => (Json.str sr.1, sr.2))
    | '[' :: ']' :: rest => some (Json.arr [], rest)
    | '[' :: rest =>
      (parseArrItems fuel rest).map (fun xr => (Json.arr xr.1, xr.2))
    | '\x7b' :: '\x7d' :: rest => some (Json.obj [], rest)
    | '\x7b' :: rest =>
      (parseObjItems fuel rest).map (fun fr => (Json.obj fr.1, fr.2))
    | '-' :: rest =>
      match rest with
      | c :: _ =>
        match digitVal c with
        | some _ =>
          (parseNatChars fuel 0 rest).map
            (fun nr => (Json.num (-(nr.1 : Int)), nr.2))
        | none => none
      | [] => none
    | c :: _ =>
      match digitVal c with
      | some _ =>
        (parseNatChars fuel 0 cs).map (fun nr => (Json.num (nr.1 : Int), nr.2))
      | none => none
    | [] => none

/-- Parse the items of a non-empty array, up to and past the closing
bracket. -/
def parseArrItems (fuel : Nat) (cs : List Char) : Option (List Json × List Char) :=
  match fuel with
  | 0 => none
  | fuel + 1 =>
    match parseVal fuel cs with
    | none => none
    | some (v, rest) =>
      match rest with
      | ',' :: rest2 =>
        (parseArrItems fuel rest2).map (fun xr => (v :: xr.1, xr.2))
      | ']' :: rest2 => some ([v], rest2)
      | _ => none

/-- Parse the fields of a non-empty object, up to and past the closing
brace. -/
def parseObjItems (fuel : Nat) (cs : List Char) : Option (List (String × Json) × List Char) :=
  match fuel with
  | 0 => none
  | fuel + 1 =>
    match cs with
    | '"' :: rest =>
      match parseStringBody fuel rest with
      | none => none
      | some (k, rest2) =>
        match rest2 with
        | ':' :: rest3 =>
          match parseVal fuel rest3 with
          | none => none
          | some (v, rest4) =>
            match rest4 with
            | ',' :: rest5 =>
              (parseObjItems fuel rest5).map (fun fr => ((k, v) :: fr.1, fr.2))
            | '\x7d' :: rest5 => some ([(k, v)], rest5)
            | _ => none
        | _ => none
    | _ => none

end

/-- Parse a complete JSON document (no trailing characters). -/
def parseJson (s : String) : Option Json :=
  match parseVal (2 * s.length + 4) s.data with
  | some (v, []) => some v
  | _ => none

/-! ## Properties of the decimal rendering and parsing -/

theorem digitVal_digitChar (d : Nat) (h : d < 10) : digitVal (digitChar d) = some d := by
  interval_cases d <;> decide

theorem digitsVal_append (acc : Nat) (xs ys : List Char) :
    digitsVal acc (xs ++ ys) = (digitsVal acc xs).bind (fun a => digitsVal a ys) := by
  induction xs generalizing acc with
  | nil => rfl
  | cons c cs ih =>
    cases h : digitVal c with
    | none => simp [digitsVal, h]
    | some d => simp [digitsVal, h, ih]

theorem digitsVal_natRender (n : Nat) :
    ∀ acc, digitsVal acc (natRender n) = some (acc * 10 ^ (natRender n).length + n) := by
  induction n using Nat.strong_induction_on with
  | _ n ih =>
    intro acc
    by_cases h : n < 10
    · rw [natRender]
      simp only [h, dite_true]
      simp [digitsVal, digitVal_digitChar n h]
    · rw [natRender]
      simp only [h, dite_false]
      rw [digitsVal_append, ih (n / 10) (Nat.div_lt_self (by omega) (by omega)) acc]
      have hd : n % 10 < 10 := Nat.mod_lt _ (by omega)
      have hdm : n / 10 * 10 + n % 10 = n := by omega
      have harith :
          (acc * 10 ^ (natRender (n / 10)).length + n / 10) * 10 + n % 10
            = acc * 10 ^ ((natRender (n / 10)).length + 1) + n := by
        calc (acc * 10 ^ (natRender (n / 10)).length + n / 10) * 10 + n % 10
            = acc * (10 ^ (natRender (n / 10)).length * 10) + (n / 10 * 10 + n % 10) := by ring
          _ = acc * 10 ^ ((natRender (n / 10)).length + 1) + n := by rw [hdm, pow_succ]
      simp only [Option.bind, digitsVal, digitVal_digitChar (n % 10) hd,
        List.length_append, List.length_cons, List.length_nil, harith]

theorem natRender_head (n : Nat) :
    ∃ d rest, natRender n = digitChar d :: rest ∧ d < 10 := by
  induction n using Nat.strong_induction_on with
  | _ n ih =>
    by_cases h : n < 10
    · exact ⟨n, [], by rw [natRender]; simp [h], h⟩
    · obtain ⟨d, rest, heq, hd⟩ := ih (n / 10) (Nat.div_lt_self (by omega) (by omega))
      exact ⟨d, rest ++ [digitChar (n % 10)], by rw [natRender]; simp [h, heq], hd⟩

theorem stripSign_natRender (n : Nat) : stripSign (natRender n) = (false, natRender n) := by
  obtain ⟨d, rest, heq, hd⟩ := natRender_head n
  have h1 : digitChar d ≠ '-' := by interval_cases d <;> decide
  have h2 : digitChar d ≠ '+' := by interval_cases d <;> decide
  rw [heq]
  simp [stripSign, h1, h2]

theorem natRender_ne_nil (n : Nat) : natRender n ≠ [] := by
  obtain ⟨d, rest, heq, _⟩ := natRender_head n
  rw [heq]
  simp

theorem parseIntChars_natRender (n : Nat) : parseIntChars (natRender n) = some (n : Int) := by
  simp only [parseIntChars, stripSign_natRender n]
  rw [if_neg (natRender_ne_nil n), digitsVal_natRender n 0]
  simp

theorem parseIntChars_intRender (ms : Int) : parseIntChars (intRender ms) = some ms := by
  by_cases h : ms < 0
  · have habs : ((ms.natAbs : Nat) : Int) = -ms := by omega
    have hs : stripSign ('-' :: natRender ms.natAbs) = (true, natRender ms.natAbs) := by
      simp [stripSign]
    simp only [intRender, h, if_true]
    simp only [parseIntChars, hs]
    rw [if_neg (natRender_ne_nil ms.natAbs), digitsVal_natRender ms.natAbs 0]
    simp [habs]
  · have habs : ((ms.natAbs : Nat) : Int) = ms := by omega
    simp only [intRender, h, if_false]
    rw [parseIntChars_natRender, habs]

theorem parseI64_encodeTs (ms : Int)
    (h1 : -(2 ^ 63) ≤ ms) (h2 : ms ≤ 2 ^ 63 - 1) :
    parseI64 (encodeTs ms) = some ms := by
  have hdata : (encodeTs ms).data = intRender ms := rfl
  simp only [parseI64, hdata, parseIntChars_intRender]
  rw [if_pos (And.intro h1 h2)]

theorem decodeTs_encodeTs (ms : Int)
    (h1 : tsMinMillis ≤ ms) (h2 : ms ≤ tsMaxMillis) :
    decodeTs (encodeTs ms) = some ms := by
  have e1 : tsMinMillis = (-8334601228800000 : Int) := rfl
  have e2 : tsMaxMillis = (8210266876799999 : Int) := rfl
  have p63 : ((2 : Int) ^ 63) = 9223372036854775808 := by norm_num
  have hb1 : -(2 ^ 63) ≤ ms := by rw [p63]; rw [e1] at h1; omega
  have hb2 : ms ≤ 2 ^ 63 - 1 := by rw [p63]; rw [e2] at h2; omega
  unfold decodeTs
  rw [parseI64_encodeTs ms hb1 hb2]
  show fromTimestampMillis ms = some ms
  simp only [fromTimestampMillis]
  rw [if_pos (And.intro h1 h2)]

/-- Claim C5: for every point-in-time value truncated to millisecond
precision within the representable range, decoding the encoded wire string
(the base-10 string of the millisecond offset) gives back the value; for
the optional codec, decode(encode(None)) = None and decoding a JSON null
yields None rather than an error. -/
theorem claim_c5_timestamp_roundtrip (ms : Int)
    (h1 : tsMinMillis ≤ ms) (h2 : ms ≤ tsMaxMillis) :
    decodeTs (encodeTs ms) = some ms
      ∧ decodeTsOpt (encodeTsOpt none) = some none
      ∧ decodeTsOpt Json.null = some none :=
  ⟨decodeTs_encodeTs ms h1 h2, rfl, rfl⟩

theorem claim_c5_timestamp_roundtrip_witness :
    tsMinMillis ≤ (1700000000000 : Int) ∧ (1700000000000 : Int) ≤ tsMaxMillis
      ∧ decodeTs (encodeTs 1700000000000) = some 1700000000000 :=
  ⟨by decide, by decide,
    (claim_c5_timestamp_roundtrip 1700000000000 (by decide) (by decide)).1⟩

/-- Claim C8: every input string that does not parse as an integer, or
parses to an integer outside the representable range, makes the timestamp
decoder fail with an error carrying the offending string; every decimal
representation of a representable millisecond offset (negative pre-epoch
offsets included) decodes successfully. -/
theorem claim_c8_decode_errors :
    (∀ s : String, parseI64 s = none → visitTsStr s = Except.error s)
      ∧ (∀ (s : String) (v : Int), parseI64 s = some v →
          (v < tsMinMillis ∨ tsMaxMillis < v) → visitTsStr s = Except.error s)
      ∧ (∀ ms : Int, tsMinMillis ≤ ms → ms ≤ tsMaxMillis →
          visitTsStr (encodeTs ms) = Except.ok ms) := by
  refine ⟨?_, ?_, ?_⟩
  · intro s h
    simp [visitTsStr, decodeTs, h]
  · intro s v h hv
    have hrange : fromTimestampMillis v = none := by
      simp only [fromTimestampMillis]
      rw [if_neg]
      rintro ⟨a, b⟩
      rcases hv with hv | hv <;> omega
    simp [visitTsStr, decodeTs, h, hrange]
  · intro ms h1 h2
    simp [visitTsStr, decodeTs_encodeTs ms h1 h2]

theorem claim_c8_decode_errors_witness :
    parseI64 "not-a-number" = none
      ∧ visitTsStr "not-a-number" = Except.error "not-a-number"
      ∧ parseI64 "9000000000000000000" = some 9000000000000000000
      ∧ visitTsStr "9000000000000000000" = Except.error "9000000000000000000"
      ∧ visitTsStr (encodeTs (-5)) = Except.ok (-5) :=
  ⟨by decide,
   claim_c8_decode_errors.1 "not-a-number" (by decide),
   by decide,
   claim_c8_decode_errors.2.1 "9000000000000000000" 9000000000000000000 (by decide)
     (Or.inr (by decide)),
   claim_c8_decode_errors.2.2 (-5) (by decide) (by decide)⟩

/-! ## Builder validation (claims C3, C6) -/

/-- When `build()` succeeds, the payload carries exactly the builder's
values: required fields as set, defaulted fields falling back to `None`. -/
theorem build_ok_spec (b : PayloadBuilder) (pl : Payload)
    (h : b.build = Except.ok pl) :
    b.p = some pl.p ∧ b.tv = some pl.tv ∧ b.eid = some pl.eid
      ∧ b.dtm = some pl.dtm ∧ b.stm = some pl.stm ∧ b.aid = some pl.aid
      ∧ pl.ttm = b.ttm.getD none ∧ pl.e = b.e.getD none
      ∧ pl.ue_pr = b.ue_pr.getD none ∧ pl.co = b.co.getD none
      ∧ pl.structured_event = b.structured_event.getD none
      ∧ pl.subject = b.subject.getD none := by
  cases hp : b.p with
  | none => simp [PayloadBuilder.build, hp] at h
  | some vp =>
  cases htv : b.tv with
  | none => simp [PayloadBuilder.build, hp, htv] at h
  | some vtv =>
  cases heid : b.eid with
  | none => simp [PayloadBuilder.build, hp, htv, heid] at h
  | some veid =>
  cases hdtm : b.dtm with
  | none => simp [PayloadBuilder.build, hp, htv, heid, hdtm] at h
  | some vdtm =>
  cases hstm : b.stm with
  | none => simp [PayloadBuilder.build, hp, htv, heid, hdtm, hstm] at h
  | some vstm =>
  cases haid : b.aid with
  | none => simp [PayloadBuilder.build, hp, htv, heid, hdtm, hstm, haid] at h
  | some vaid =>
    simp only [PayloadBuilder.build, hp, htv, heid, hdtm, hstm, haid,
      Except.ok.injEq] at h
    subst h
    simp

/-- When all six required fields are set, `build()` succeeds with exactly
those values. -/
theorem build_complete (b : PayloadBuilder)
    (vp vtv vaid : String) (veid : Uuid) (vdtm vstm : Int)
    (hp : b.p = some vp) (htv : b.tv = some vtv) (heid : b.eid = some veid)
    (hdtm : b.dtm = some vdtm) (hstm : b.stm = some vstm)
    (haid : b.aid = some vaid) :
    b.build = Except.ok
      { p := vp, tv := vtv, eid := veid, dtm := vdtm, stm := vstm,
        ttm := b.ttm.getD none, e := b.e.getD none, aid := vaid,
        ue_pr := b.ue_pr.getD none, co := b.co.getD none,
        structured_event := b.structured_event.getD none,
        subject := b.subject.getD none } := by
  simp [PayloadBuilder.build, hp, htv, heid, hdtm, hstm, haid]

/-- When a required field is missing, `build()` fails with an error naming
a field that is indeed missing. -/
theorem build_missing (b : PayloadBuilder)
    (h : b.p = none ∨ b.tv = none ∨ b.eid = none ∨ b.dtm = none
      ∨ b.stm = none ∨ b.aid = none) :
    ∃ f, b.build = Except.error (Error.missingField f)
      ∧ ((f = "p" ∧ b.p = none) ∨ (f = "tv" ∧ b.tv = none)
        ∨ (f = "eid" ∧ b.eid = none) ∨ (f = "dtm" ∧ b.dtm = none)
        ∨ (f = "stm" ∧ b.stm = none) ∨ (f = "aid" ∧ b.aid = none)) := by
  cases hp : b.p with
  | none => exact ⟨"p", by simp [PayloadBuilder.build, hp], Or.inl ⟨rfl, rfl⟩⟩
  | some vp =>
  cases htv : b.tv with
  | none =>
    exact ⟨"tv", by simp [PayloadBuilder.build, hp, htv], Or.inr (Or.inl ⟨rfl, rfl⟩)⟩
  | some vtv =>
  cases heid : b.eid with
  | none =>
    exact ⟨"eid", by simp [PayloadBuilder.build, hp, htv, heid],
      Or.inr (Or.inr (Or.inl ⟨rfl, rfl⟩))⟩
  | some veid =>
  cases hdtm : b.dtm with
  | none =>
    exact ⟨"dtm", by simp [PayloadBuilder.build, hp, htv, heid, hdtm],
      Or.inr (Or.inr (Or.inr (Or.inl ⟨rfl, rfl⟩)))⟩
  | some vdtm =>
  cases hstm : b.stm with
  | none =>
    exact ⟨"stm", by simp [PayloadBuilder.build, hp, htv, heid, hdtm, hstm],
      Or.inr (Or.inr (Or.inr (Or.inr (Or.inl ⟨rfl, rfl⟩))))⟩
  | some vstm =>
  cases haid : b.aid with
  | none =>
    exact ⟨"aid", by simp [PayloadBuilder.build, hp, htv, heid, hdtm, hstm, haid],
      Or.inr (Or.inr (Or.inr (Or.inr (Or.inr ⟨rfl, rfl⟩))))⟩
  | some vaid =>
    rw [hp, htv, heid, hdtm, hstm, haid] at h
    rcases h with h | h | h | h | h | h <;> exact absurd h (by simp)

/-- Claim C3: whenever at least one required field among p, tv, eid, dtm,
stm, aid is unset, `build()` returns an error naming a missing field;
whenever all six are set, `build()` succeeds and the resulting payload
carries exactly the values that were set. -/
theorem claim_c3_build_validation :
    (∀ b : PayloadBuilder,
      (b.p = none ∨ b.tv = none ∨ b.eid = none ∨ b.dtm = none
        ∨ b.stm = none ∨ b.aid = none) →
      ∃ f, b.build = Except.error (Error.missingField f)
        ∧ ((f = "p" ∧ b.p = none) ∨ (f = "tv" ∧ b.tv = none)
          ∨ (f = "eid" ∧ b.eid = none) ∨ (f = "dtm" ∧ b.dtm = none)
          ∨ (f = "stm" ∧ b.stm = none) ∨ (f = "aid" ∧ b.aid = none)))
    ∧ (∀ (b : PayloadBuilder) (vp vtv vaid : String) (veid : Uuid) (vdtm vstm : Int),
        b.p = some vp → b.tv = some vtv → b.eid = some veid →
        b.dtm = some vdtm → b.stm = some vstm → b.aid = some vaid →
        b.build = Except.ok
          { p := vp, tv := vtv, eid := veid, dtm := vdtm, stm := vstm,
            ttm := b.ttm.getD none, e := b.e.getD none, aid := vaid,
            ue_pr := b.ue_pr.getD none, co := b.co.getD none,
            structured_event := b.structured_event.getD none,
            subject := b.subject.getD none }) :=
  ⟨build_missing,
   fun b vp vtv vaid veid vdtm vstm hp htv heid hdtm hstm haid =>
     build_complete b vp vtv vaid veid vdtm vstm hp htv heid hdtm hstm haid⟩

theorem claim_c3_build_validation_witness :
    (∃ f, (Payload.builder).build = Except.error (Error.missingField f)
      ∧ ((f = "p" ∧ (Payload.builder).p = none)
        ∨ (f = "tv" ∧ (Payload.builder).tv = none)
        ∨ (f = "eid" ∧ (Payload.builder).eid = none)
        ∨ (f = "dtm" ∧ (Payload.builder).dtm = none)
        ∨ (f = "stm" ∧ (Payload.builder).stm = none)
        ∨ (f = "aid" ∧ (Payload.builder).aid = none)))
    ∧ ((((((Payload.builder.setP "pc").setTv "x").setEid ⟨"u"⟩).setDtm
          1700000000000).setStm 1700000000000).setAid "app1").build
        = Except.ok
          { p := "pc", tv := "x", eid := ⟨"u"⟩, dtm := 1700000000000,
            stm := 1700000000000, ttm := none, e := none, aid := "app1",
            ue_pr := none, co := none, structured_event := none,
            subject := none } :=
  ⟨claim_c3_build_validation.1 Payload.builder (Or.inl rfl),
   claim_c3_build_validation.2
     ((((((Payload.builder.setP "pc").setTv "x").setEid ⟨"u"⟩).setDtm
        1700000000000).setStm 1700000000000).setAid "app1")
     "pc" "x" "app1" ⟨"u"⟩ 1700000000000 1700000000000
     rfl rfl rfl rfl rfl rfl⟩

/-- Claim C6: `finalise_payload` overwrites `stm` with the clock reading
taken at finalization time and then delegates to `build()`; every other
builder field flows into the payload unchanged, so a successful result has
`stm = now` regardless of any previously seeded `stm`. -/
theorem claim_c6_finalise_stamps_stm (b : PayloadBuilder) (now : Int) :
    b.finalisePayload now = (b.setStm now).build
      ∧ (∀ pl, b.finalisePayload now = Except.ok pl →
          pl.stm = now
            ∧ b.p = some pl.p ∧ b.tv = some pl.tv ∧ b.eid = some pl.eid
            ∧ b.dtm = some pl.dtm ∧ b.aid = some pl.aid
            ∧ pl.ttm = b.ttm.getD none ∧ pl.e = b.e.getD none
            ∧ pl.ue_pr = b.ue_pr.getD none ∧ pl.co = b.co.getD none
            ∧ pl.structured_event = b.structured_event.getD none
            ∧ pl.subject = b.subject.getD none) := by
  refine ⟨rfl, ?_⟩
  intro pl h
  obtain ⟨hp, htv, heid, hdtm, hstm, haid, hrest⟩ :=
    build_ok_spec (b.setStm now) pl h
  have hsets : (b.setStm now).stm = some now := rfl
  rw [hsets] at hstm
  exact ⟨(Option.some.injEq _ _).mp hstm.symm, hp, htv, heid, hdtm, haid, hrest⟩

theorem claim_c6_finalise_stamps_stm_witness :
    ((((((Payload.builder.setP "pc").setTv "x").setEid ⟨"u"⟩).setDtm
        1).setStm 1).setAid "app1").finalisePayload 2
      = Except.ok
        { p := "pc", tv := "x", eid := ⟨"u"⟩, dtm := 1, stm := 2,
          ttm := none, e := none, aid := "app1", ue_pr := none, co := none,
          structured_event := none, subject := none }
    ∧ ({ p := "pc", tv := "x", eid := ⟨"u"⟩, dtm := 1, stm := 2,
          ttm := none, e := none, aid := "app1", ue_pr := none, co := none,
          structured_event := none, subject := none } : Payload).stm = 2 :=
  ⟨rfl,
   ((claim_c6_finalise_stamps_stm
      ((((((Payload.builder.setP "pc").setTv "x").setEid ⟨"u"⟩).setDtm
        1).setStm 1).setAid "app1") 2).2 _ rfl).1⟩

/-! ## Tracker orchestration claims -/

/-- Claim C4: a subject is attached to the payload builder if and only if
the event declares its own Subject; when attached, the value is
merge(event subject, tracker default) where the event's attribute wins
when present and the tracker's default fills in only absent attributes;
when the event declares no Subject, nothing (not even the tracker's
defaults) is attached. -/
theorem claim_c4_subject_merge :
    (∀ (t : Tracker) (now : Int) (eid : Uuid)
       (ctx : Option (List SelfDescribingJson)),
      (t.trackBuilder now eid ctx none).subject = none)
    ∧ (∀ (t : Tracker) (now : Int) (eid : Uuid)
         (ctx : Option (List SelfDescribingJson)) (s : Subject),
        (t.trackBuilder now eid ctx (some s)).subject
          = some (some (s.merge t.subject)))
    ∧ (∀ a b : Subject,
        ((a.user_id ≠ none → (a.merge b).user_id = a.user_id)
          ∧ (a.user_id = none → (a.merge b).user_id = b.user_id))
        ∧ ((a.ip_address ≠ none → (a.merge b).ip_address = a.ip_address)
          ∧ (a.ip_address = none → (a.merge b).ip_address = b.ip_address))
        ∧ ((a.language ≠ none → (a.merge b).language = a.language)
          ∧ (a.language = none → (a.merge b).language = b.language))) := by
  refine ⟨?_, ?_, ?_⟩
  · intro t now eid ctx
    cases ctx <;> rfl
  · intro t now eid ctx s
    cases ctx <;> rfl
  · intro a b
    rcases a with ⟨au, ai, al⟩
    cases au <;> cases ai <;> cases al <;>
      simp [Subject.merge, mergeOpt]

theorem claim_c4_subject_merge_witness :
    (Tracker.trackBuilder (Tracker.new "ns" "app1" (some ⟨some "u2", some "ip0", none⟩))
        5 ⟨"u"⟩ none none).subject = none
    ∧ (Tracker.trackBuilder (Tracker.new "ns" "app1" (some ⟨some "u2", some "ip0", none⟩))
        5 ⟨"u"⟩ none (some ⟨some "u1", none, some "en"⟩)).subject
      = some (some ⟨some "u1", some "ip0", some "en"⟩)
    ∧ (Subject.merge ⟨some "u1", none, some "en"⟩ ⟨some "u2", some "ip0", none⟩).user_id
      = some "u1"
    ∧ (Subject.merge ⟨some "u1", none, some "en"⟩ ⟨some "u2", some "ip0", none⟩).ip_address
      = some "ip0" :=
  ⟨claim_c4_subject_merge.1 (Tracker.new "ns" "app1" (some ⟨some "u2", some "ip0", none⟩))
     5 ⟨"u"⟩ none,
   claim_c4_subject_merge.2.1 (Tracker.new "ns" "app1" (some ⟨some "u2", some "ip0", none⟩))
     5 ⟨"u"⟩ none ⟨some "u1", none, some "en"⟩,
   (claim_c4_subject_merge.2.2 ⟨some "u1", none, some "en"⟩
     ⟨some "u2", some "ip0", none⟩).1.1 (by simp),
   (claim_c4_subject_merge.2.2 ⟨some "u1", none, some "en"⟩
     ⟨some "u2", some "ip0", none⟩).2.1.2 rfl⟩

/-- Claim C9: the builder handed to the event's finalizer is seeded with
the tracker's platform as p, its version as tv, the generated event id as
eid, dtm and stm both equal to the single captured clock reading, and the
tracker's application id as aid; at seeding time no context, subject or
event-specific field is attached, and the seeded values survive context
and subject attachment. -/
theorem claim_c9_seeding (t : Tracker) (now : Int) (eid : Uuid)
    (ctx : Option (List SelfDescribingJson)) (evs : Option Subject) :
    (t.seedBuilder now eid).p = some t.config.platform
    ∧ (t.seedBuilder now eid).tv = some t.config.version
    ∧ (t.seedBuilder now eid).eid = some eid
    ∧ (t.seedBuilder now eid).dtm = some now
    ∧ (t.seedBuilder now eid).stm = some now
    ∧ (t.seedBuilder now eid).aid = some t.app_id
    ∧ (t.seedBuilder now eid).co = none
    ∧ (t.seedBuilder now eid).subject = none
    ∧ (t.seedBuilder now eid).ue_pr = none
    ∧ (t.seedBuilder now eid).structured_event = none
    ∧ (t.seedBuilder now eid).ttm = none
    ∧ (t.seedBuilder now eid).e = none
    ∧ (t.trackBuilder now eid ctx evs).p = some t.config.platform
    ∧ (t.trackBuilder now eid ctx evs).tv = some t.config.version
    ∧ (t.trackBuilder now eid ctx evs).eid = some eid
    ∧ (t.trackBuilder now eid ctx evs).dtm = some now
    ∧ (t.trackBuilder now eid ctx evs).stm = some now
    ∧ (t.trackBuilder now eid ctx evs).aid = some t.app_id := by
  cases ctx <;> cases evs <;>
    exact ⟨rfl, rfl, rfl, rfl, rfl, rfl, rfl, rfl, rfl, rfl, rfl, rfl,
      rfl, rfl, rfl, rfl, rfl, rfl⟩

/-- Claim C10: the emitter is handed at most one payload per `track`
call, and only after a successful build; a clock failure or a finalizer
error is returned with no payload handed over; after a successful
enqueue, `track` returns the event id generated in that call; an enqueue
failure is returned unchanged. -/
theorem claim_c10_delivery :
    (∀ (t : Tracker) (ev : Event) (ctx : Option (List SelfDescribingJson))
       (eid : Uuid) (emit : Payload → Except Error Unit) (msg : String),
      t.track ev ctx (Except.error msg) eid emit
        = ([], Except.error
            (Error.builderError ("Failed to get current time: " ++ msg))))
    ∧ (∀ (t : Tracker) (ev : Event) (ctx : Option (List SelfDescribingJson))
         (now : Int) (eid : Uuid) (emit : Payload → Except Error Unit)
         (err : Error),
        ev.build_payload (t.trackBuilder now eid ctx ev.subject)
            = Except.error err →
        t.track ev ctx (Except.ok now) eid emit = ([], Except.error err))
    ∧ (∀ (t : Tracker) (ev : Event) (ctx : Option (List SelfDescribingJson))
         (now : Int) (eid : Uuid) (emit : Payload → Except Error Unit)
         (pl : Payload),
        ev.build_payload (t.trackBuilder now eid ctx ev.subject)
            = Except.ok pl →
        (emit pl = Except.ok () →
          t.track ev ctx (Except.ok now) eid emit = ([pl], Except.ok eid))
        ∧ (∀ err, emit pl = Except.error err →
            t.track ev ctx (Except.ok now) eid emit
              = ([pl], Except.error err)))
    ∧ (∀ (t : Tracker) (ev : Event) (ctx : Option (List SelfDescribingJson))
         (clock : Except String Int) (eid : Uuid)
         (emit : Payload → Except Error Unit),
        (t.track ev ctx clock eid emit).1.length ≤ 1) := by
  refine ⟨?_, ?_, ?_, ?_⟩
  · intro t ev ctx eid emit msg
    rfl
  · intro t ev ctx now eid emit err h
    simp [Tracker.track, h]
  · intro t ev ctx now eid emit pl h
    constructor
    · intro he
      simp [Tracker.track, h, he]
    · intro err he
      simp [Tracker.track, h, he]
  · intro t ev ctx clock eid emit
    cases clock with
    | error msg => simp [Tracker.track]
    | ok now =>
      cases hb : ev.build_payload (t.trackBuilder now eid ctx ev.subject) with
      | error err => simp [Tracker.track, hb]
      | ok pl =>
        cases he : emit pl with
        | ok u => simp [Tracker.track, hb, he]
        | error err => simp [Tracker.track, hb, he]

theorem claim_c10_delivery_witness :
    (Tracker.new "ns" "app1" none).track ⟨none, fun b => b.build⟩ none
        (Except.error "no clock") ⟨"u"⟩ (fun _ => Except.ok ())
      = ([], Except.error
          (Error.builderError ("Failed to get current time: " ++ "no clock")))
    ∧ (Tracker.new "ns" "app1" none).track
        ⟨none, fun _ => Except.error (Error.missingField "e")⟩ none
        (Except.ok 5) ⟨"u"⟩ (fun _ => Except.ok ())
      = ([], Except.error (Error.missingField "e"))
    ∧ (Tracker.new "ns" "app1" none).track ⟨none, fun b => b.build⟩ none
        (Except.ok 5) ⟨"u"⟩ (fun _ => Except.ok ())
      = ([{ p := "pc", tv := "rust-0.1.0", eid := ⟨"u"⟩, dtm := 5, stm := 5,
            ttm := none, e := none, aid := "app1", ue_pr := none, co := none,
            structured_event := none, subject := none }], Except.ok ⟨"u"⟩)
    ∧ (Tracker.new "ns" "app1" none).track ⟨none, fun b => b.build⟩ none
        (Except.ok 5) ⟨"u"⟩ (fun _ => Except.error (Error.emitterError "down"))
      = ([{ p := "pc", tv := "rust-0.1.0", eid := ⟨"u"⟩, dtm := 5, stm := 5,
            ttm := none, e := none, aid := "app1", ue_pr := none, co := none,
            structured_event := none, subject := none }],
         Except.error (Error.emitterError "down")) :=
  ⟨claim_c10_delivery.1 (Tracker.new "ns" "app1" none) ⟨none, fun b => b.build⟩
     none ⟨"u"⟩ (fun _ => Except.ok ()) "no clock",
   claim_c10_delivery.2.1 (Tracker.new "ns" "app1" none)
     ⟨none, fun _ => Except.error (Error.missingField "e")⟩ none 5 ⟨"u"⟩
     (fun _ => Except.ok ()) (Error.missingField "e") rfl,
   (claim_c10_delivery.2.2.1 (Tracker.new "ns" "app1" none)
     ⟨none, fun b => b.build⟩ none 5 ⟨"u"⟩ (fun _ => Except.ok ()) _ rfl).1 rfl,
   (claim_c10_delivery.2.2.1 (Tracker.new "ns" "app1" none)
     ⟨none, fun b => b.build⟩ none 5 ⟨"u"⟩
     (fun _ => Except.error (Error.emitterError "down")) _ rfl).2
     (Error.emitterError "down") rfl⟩

/-! ## Envelope wrapper claims -/

/-- Claim C7, amended: `ContextData::new` and `SelfDescribingEventData::new`
always inject the fixed schema constants, but since both structs declare
their fields `pub` (src/payload.rs), values with any other schema are
constructible through the public interface. -/
theorem claim_c7_new_injects_schema :
    (∀ entries, (ContextData.new entries).schema = contextsSchema)
    ∧ (∀ d, (SelfDescribingEventData.new d).schema = unstructEventSchema)
    ∧ (∃ c : ContextData, c.schema ≠ contextsSchema)
    ∧ (∃ e : SelfDescribingEventData, e.schema ≠ unstructEventSchema) :=
  ⟨fun _ => rfl, fun _ => rfl,
   ⟨⟨"s2", []⟩, by decide⟩,
   ⟨⟨"s3", SelfDescribingJson.new "s1" (mkObj [])⟩, by decide⟩⟩

/-- Claim C7 counterexample: the schema fields of both wrappers are `pub`
in src/payload.rs (and both types derive `Deserialize`), so the public
struct literal builds a `ContextData` — and likewise a
`SelfDescribingEventData` — whose schema differs from the fixed constant,
refuting "the schema identifier is never settable by callers". -/
theorem claim_c7_counterexample :
    (ContextData.mk "s2" []).schema ≠ contextsSchema
    ∧ (SelfDescribingEventData.mk "s3"
        (SelfDescribingJson.new "s1" (mkObj []))).schema ≠ unstructEventSchema :=
  ⟨by decide, by decide⟩

/-- Claim C2: serializing a `ContextData` (and a
`SelfDescribingEventData`) yields a single JSON string — the rendered
text of the logical `{schema, data}` object — and parsing that text back
yields exactly the object with the fixed schema constant and the wrapped
entries; in particular for entries `[{schema:"s1",data:{}}]`. -/
theorem claim_c2_double_encoding :
    (∀ cd : ContextData, cd.serialize = Json.str (renderJson cd.innerValue))
    ∧ (∀ ed : SelfDescribingEventData,
        ed.serialize = Json.str (renderJson ed.innerValue))
    ∧ parseJson (renderJson
          (ContextData.new [SelfDescribingJson.new "s1" (mkObj [])]).innerValue)
        = some (mkObj [("schema", Json.str contextsSchema),
            ("data", Json.arr [(SelfDescribingJson.new "s1" (mkObj [])).toValue])])
    ∧ parseJson (renderJson
          (SelfDescribingEventData.new
            (SelfDescribingJson.new "s1" (mkObj []))).innerValue)
        = some (mkObj [("schema", Json.str unstructEventSchema),
            ("data", (SelfDescribingJson.new "s1" (mkObj [])).toValue)]) :=
  ⟨fun _ => rfl, fun _ => rfl, by rfl, by rfl⟩

/-! ## Serialization omission of absent optional fields (claim C1) -/

theorem not_mem_optField (k k' : String) (o : Option Json) (h : k' ≠ k) :
    k' ∉ (optField k o).map Prod.fst := by
  cases o <;> simp [optField, h]

theorem not_mem_structuredPart (sev : Option StructuredEvent) (k : String)
    (h1 : k ≠ "se_ca") (h2 : k ≠ "se_ac") :
    k ∉ (match sev with
         | none => ([] : List (String × Json))
         | some se => se.serializeFields).map Prod.fst := by
  cases sev with
  | none => simp
  | some se =>
    rcases se with ⟨ca, ac⟩
    cases ca <;> cases ac <;>
      simp [StructuredEvent.serializeFields, optField, h1, h2]

theorem not_mem_subjectPart (sub : Option Subject) (k : String)
    (h1 : k ≠ "uid") (h2 : k ≠ "ip") (h3 : k ≠ "lang") :
    k ∉ (match sub with
         | none => ([] : List (String × Json))
         | some s => s.serializeFields).map Prod.fst := by
  cases sub with
  | none => simp
  | some s =>
    rcases s with ⟨u, i, l⟩
    cases u <;> cases i <;> cases l <;>
      simp [Subject.serializeFields, optField, h1, h2, h3]

/-- An absent `ttm` contributes no key to the serialized object. -/
theorem ttm_not_serialized (pl : Payload) (h : pl.ttm = none) :
    "ttm" ∉ pl.serializeKeys := by
  intro hk
  simp only [Payload.serializeKeys, Payload.serializeFields, h,
    List.map_append, List.mem_append, List.map_cons, List.map_nil,
    List.mem_cons, List.not_mem_nil, or_false, false_or] at hk
  rcases hk with ((((((hk | hk) | hk) | hk) | hk) | hk) | hk) | hk
  · exact absurd hk (by decide)
  · simp [optField] at hk
  · exact absurd hk (by decide)
  · exact absurd hk (by decide)
  · exact not_mem_optField "ue_pr" "ttm" _ (by decide) hk
  · exact not_mem_optField "co" "ttm" _ (by decide) hk
  · exact not_mem_structuredPart pl.structured_event "ttm" (by decide) (by decide) hk
  · exact not_mem_subjectPart pl.subject "ttm" (by decide) (by decide) (by decide) hk

/-- An absent `ue_pr` contributes no key to the serialized object. -/
theorem uepr_not_serialized (pl : Payload) (h : pl.ue_pr = none) :
    "ue_pr" ∉ pl.serializeKeys := by
  intro hk
  simp only [Payload.serializeKeys, Payload.serializeFields, h,
    List.map_append, List.mem_append, List.map_cons, List.map_nil,
    List.mem_cons, List.not_mem_nil, or_false, false_or] at hk
  rcases hk with ((((((hk | hk) | hk) | hk) | hk) | hk) | hk) | hk
  · exact absurd hk (by decide)
  · exact not_mem_optField "ttm" "ue_pr" _ (by decide) hk
  · exact absurd hk (by decide)
  · exact absurd hk (by decide)
  · simp [optField] at hk
  · exact not_mem_optField "co" "ue_pr" _ (by decide) hk
  · exact not_mem_structuredPart pl.structured_event "ue_pr" (by decide) (by decide) hk
  · exact not_mem_subjectPart pl.subject "ue_pr" (by decide) (by decide) (by decide) hk

/-- An absent `co` contributes no key to the serialized object. -/
theorem co_not_serialized (pl : Payload) (h : pl.co = none) :
    "co" ∉ pl.serializeKeys := by
  intro hk
  simp only [Payload.serializeKeys, Payload.serializeFields, h,
    List.map_append, List.mem_append, List.map_cons, List.map_nil,
    List.mem_cons, List.not_mem_nil, or_false, false_or] at hk
  rcases hk with ((((((hk | hk) | hk) | hk) | hk) | hk) | hk) | hk
  · exact absurd hk (by decide)
  · exact not_mem_optField "ttm" "co" _ (by decide) hk
  · exact absurd hk (by decide)
  · exact absurd hk (by decide)
  · exact not_mem_optField "ue_pr" "co" _ (by decide) hk
  · simp [optField] at hk
  · exact not_mem_structuredPart pl.structured_event "co" (by decide) (by decide) hk
  · exact not_mem_subjectPart pl.subject "co" (by decide) (by decide) (by decide) hk

/-- Claim C1, amended: absent optional fields `ttm`, `ue_pr`, `co`, the
flattened structured-event fields and the flattened subject fields
contribute no key to the serialized object; an absent `e`, however, is
serialized as a JSON null under the key "e" (it lacks the skip attribute
in the source).  A payload with only the required fields set therefore
serializes to the key list p, tv, eid, dtm, stm, e, aid. -/
theorem claim_c1_optional_omission :
    (∀ pl : Payload, pl.ttm = none → "ttm" ∉ pl.serializeKeys)
    ∧ (∀ pl : Payload, pl.ue_pr = none → "ue_pr" ∉ pl.serializeKeys)
    ∧ (∀ pl : Payload, pl.co = none → "co" ∉ pl.serializeKeys)
    ∧ (∀ pl : Payload, pl.e = none → ("e", Json.null) ∈ pl.serializeFields)
    ∧ (∀ (p tv aid : String) (eid : Uuid) (dtm stm : Int) (e : Option EventType),
        (Payload.mk p tv eid dtm stm none e aid none none none none).serializeKeys
          = ["p", "tv", "eid", "dtm", "stm", "e", "aid"]) := by
  refine ⟨ttm_not_serialized, uepr_not_serialized, co_not_serialized, ?_, ?_⟩
  · intro pl h
    simp [Payload.serializeFields, h, List.mem_append]
  · intro p tv aid eid dtm stm e
    rfl

theorem claim_c1_optional_omission_witness :
    "ttm" ∉ (Payload.mk "pc" "x" ⟨"4d36b544-8c4c-4b40-a102-cd7c1fa561a0"⟩
        1700000000000 1700000000000 none none "app1" none none none
        none).serializeKeys
    ∧ ("e", Json.null) ∈ (Payload.mk "pc" "x" ⟨"4d36b544-8c4c-4b40-a102-cd7c1fa561a0"⟩
        1700000000000 1700000000000 none none "app1" none none none
        none).serializeFields :=
  ⟨claim_c1_optional_omission.1
     (Payload.mk "pc" "x" ⟨"4d36b544-8c4c-4b40-a102-cd7c1fa561a0"⟩
       1700000000000 1700000000000 none none "app1" none none none none) rfl,
   claim_c1_optional_omission.2.2.2.1
     (Payload.mk "pc" "x" ⟨"4d36b544-8c4c-4b40-a102-cd7c1fa561a0"⟩
       1700000000000 1700000000000 none none "app1" none none none none) rfl⟩

/-- Claim C1 counterexample: the payload of the claim's end-to-end example
(all optional fields unset) serializes with the key "e" bound to a JSON
null — the `e` field carries no `skip_serializing_if` attribute in
src/payload.rs — so its key set is not {p, tv, eid, dtm, stm, aid} and a
null value is emitted for an absent optional field. -/
theorem claim_c1_counterexample :
    ("e", Json.null) ∈ (Payload.mk "pc" "x" ⟨"4d36b544-8c4c-4b40-a102-cd7c1fa561a0"⟩
        1700000000000 1700000000000 none none "app1" none none none
        none).serializeFields
    ∧ (Payload.mk "pc" "x" ⟨"4d36b544-8c4c-4b40-a102-cd7c1fa561a0"⟩
        1700000000000 1700000000000 none none "app1" none none none
        none).serializeKeys ≠ ["p", "tv", "eid", "dtm", "stm", "aid"] := by
  constructor
  · simp [Payload.serializeFields, optField, List.mem_append]
  · decide

end Snowplow
